import Mathlib

/-!
Verification of the extraction core of the sec-converter repository
(pages/api/sec-data.js): alias-based annual fact selection, statement
assembly, ratio helpers, trend sampling and the data-quality score.

Dates are embedded as numeric keys YYYYMMDD (so comparison of keys agrees
with chronological comparison of the date strings the code feeds to
Date, and the year is recovered as key / 10000, mirroring getFullYear).
Numeric values are embedded as rationals; JavaScript null/undefined is
Option.none.  JavaScript values that can be a number, a string or null
(dataYear, filingDate, bookValuePerShare, ...) are embedded as JVal.
-/

set_option maxRecDepth 1000000

namespace SecConverter

/-- A JavaScript value that may be a number, a string or null. -/
inductive JVal where
  | num (q : ℚ)
  | str (s : String)
  | null
deriving DecidableEq

/-- One XBRL observation record, as consumed by sec-data.js
(fields val, form, fp, end, filed; absent fields are none). -/
structure Obs where
  val : Option ℚ
  form : Option String
  fp : Option String
  periodEnd : Option Nat
  filed : Option Nat
deriving DecidableEq

/-- A fact: unit identifier to observation list (fact.units). -/
abbrev Fact := List (String × List Obs)

/-- The us-gaap (or dei) part of a company facts document:
tag name to fact. -/
abbrev FactsDoc := List (String × Fact)

/-- Lookup of usgaap[fieldName]. -/
def lookupTag (doc : FactsDoc) (tag : String) : Option Fact :=
  (doc.find? (fun p => p.1 == tag)).map (fun p => p.2)

/-- Lookup of usgaap[fieldName].units[units]; none when the fact, its
units object or the requested unit entry is missing. -/
def lookupUnit (doc : FactsDoc) (tag unitName : String) : Option (List Obs) :=
  (lookupTag doc tag).bind (fun f => (f.find? (fun p => p.1 == unitName)).map (fun p => p.2))

/-- Numeric sort key of an observation (new Date(v.end)); observations
reaching the sort have passed the periodEnd presence filter. -/
def endKey (v : Obs) : Nat := v.periodEnd.getD 0

/-- The year the code derives from an observation:
v.end ? new Date(v.end).getFullYear() : 0. -/
def obsYear (v : Obs) : Nat :=
  match v.periodEnd with
  | some e => e / 10000
  | none => 0

/-- form is 10-K or 10-K/A (a missing form fails the check). -/
def isAnnualForm : Option String → Bool
  | some f => f == "10-K" || f == "10-K/A"
  | none => false

/-- The per-observation filter of getRecentAnnualValue: annual form,
full-year fiscal period, usable value, an end date, and a year at or
after the floor. -/
def annualFilter (minYear : Nat) (v : Obs) : Bool :=
  isAnnualForm v.form && (v.fp == some "FY") && v.val.isSome && v.periodEnd.isSome
    && decide (minYear ≤ obsYear v)

/-- The comparator used for sorting observations most-recent first;
with a stable sort this reproduces
values.sort((a, b) => new Date(b.end) - new Date(a.end)). -/
def moreRecent (a b : Obs) : Prop := endKey b ≤ endKey a

instance : DecidableRel moreRecent := fun _ _ => Nat.decLe _ _

instance : IsTotal Obs moreRecent :=
  ⟨fun a b => by unfold moreRecent; exact Nat.le_total (endKey b) (endKey a)⟩

instance : IsTrans Obs moreRecent :=
  ⟨fun _ _ _ h1 h2 => Nat.le_trans h2 h1⟩

/-- Stable descending sort by end date, as the JavaScript sort call. -/
def sortByEndDesc (l : List Obs) : List Obs := List.insertionSort moreRecent l

/-- The record getRecentAnnualValue builds from the chosen observation. -/
structure Resolved where
  value : ℚ
  year : Nat
  endDate : Nat
  filingDate : Option Nat
deriving DecidableEq

/-- Packaging of the most recent qualifying observation. -/
def resolveObs (v : Obs) : Resolved :=
  { value := v.val.getD 0
    year := obsYear v
    endDate := v.periodEnd.getD 0
    filingDate := v.filed }

/-- getRecentAnnualValue: walk the alias list in preference order; for
the first alias whose filtered observation list is non-empty, return
the most recent qualifying observation; otherwise null. -/
def getRecentAnnualValue (doc : FactsDoc) (unitName : String) (minYear : Nat) :
    List String → Option Resolved
  | [] => none
  | f :: rest =>
    match lookupUnit doc f unitName with
    | none => getRecentAnnualValue doc unitName minYear rest
    | some values =>
      match sortByEndDesc (values.filter (annualFilter minYear)) with
      | [] => getRecentAnnualValue doc unitName minYear rest
      | m :: _ => some (resolveObs m)

/-- The filtered (qualifying) observation list of one alias. -/
def annualQualifying (doc : FactsDoc) (unitName : String) (minYear : Nat)
    (tag : String) : List Obs :=
  ((lookupUnit doc tag unitName).getD []).filter (annualFilter minYear)

/-- One point of the quarterly trend sample. -/
structure QPoint where
  value : ℚ
  period : Option String
  endDate : Nat
  year : Nat
deriving DecidableEq

/-- The per-observation filter of getQuarterlyValues. -/
def quarterlyFilter (v : Obs) : Bool :=
  (match v.form with
   | some f => f == "10-Q" || f == "10-K"
   | none => false)
  && (match v.fp with
      | some p => p == "Q1" || p == "Q2" || p == "Q3" || p == "Q4" || p == "FY"
      | none => false)
  && v.val.isSome && v.periodEnd.isSome

/-- getQuarterlyValues: same alias walk, quarterly filter, most recent
first, truncated to the window; empty list when nothing matches. -/
def getQuarterlyValues (doc : FactsDoc) (unitName : String) (quarters : Nat) :
    List String → List QPoint
  | [] => []
  | f :: rest =>
    match lookupUnit doc f unitName with
    | none => getQuarterlyValues doc unitName quarters rest
    | some values =>
      match sortByEndDesc (values.filter quarterlyFilter) with
      | [] => getQuarterlyValues doc unitName quarters rest
      | m :: t =>
        ((m :: t).take quarters).map
          (fun q => { value := q.val.getD 0, period := q.fp
                      endDate := q.periodEnd.getD 0, year := obsYear q })

/-- The integer n of JavaScript toFixed(2): magnitude rounded half away
from zero at two decimals, sign restored. -/
def jsRound2Int (q : ℚ) : Int :=
  if q < 0 then -(Int.floor ((-q) * 100 + 1/2)) else Int.floor (q * 100 + 1/2)

/-- Number(x.toFixed(2)): x rounded to two decimal places. -/
def round2 (q : ℚ) : ℚ := (jsRound2Int q : ℚ) / 100

/-- x.toFixed(2) as the string JavaScript produces. -/
def toFixedStr2 (q : ℚ) : String :=
  let sign := if q < 0 then "-" else ""
  let m := (jsRound2Int q).natAbs
  let frac := m % 100
  sign ++ toString (m / 100) ++ "." ++
    (if frac < 10 then "0" ++ toString frac else toString frac)

/-- calculateRatio: null on a falsy operand or zero denominator, else
the percentage, discarded when outside the plus minus 1000 band,
else rounded to two decimals. -/
def calculateRatio (numerator denominator : Option ℚ) : Option ℚ :=
  if numerator = none ∨ numerator = some 0 ∨ denominator = none ∨ denominator = some 0 then
    none
  else
    let ratio := numerator.getD 0 / denominator.getD 0 * 100
    if ratio > 1000 ∨ ratio < -1000 then none else some (round2 ratio)

/-- calculateSimpleRatio: same falsy/zero rules, no percentage scaling,
no magnitude bound. -/
def calculateSimpleRatio (numerator denominator : Option ℚ) : Option ℚ :=
  if numerator = none ∨ numerator = some 0 ∨ denominator = none ∨ denominator = some 0 then
    none
  else
    some (round2 (numerator.getD 0 / denominator.getD 0))

/-- JavaScript truthiness of a number-or-null: non-null and nonzero. -/
def truthyQ : Option ℚ → Bool
  | some q => !(decide (q = 0))
  | none => false

/-- Truthiness test grossProfit !== null && grossProfit > 0. -/
def gpValid : Option ℚ → Bool
  | some g => decide (0 < g)
  | none => false

/-- someData?.value || 0: the resolved value, defaulted to 0 when the
line item did not resolve (a resolved value of 0 also yields 0). -/
def dflt (r : Option Resolved) : ℚ :=
  match r with
  | some v => v.value
  | none => 0

/-- someData?.value || null: the resolved value, with both an
unresolved item and a resolved value of 0 collapsed to null. -/
def dfltNull (r : Option Resolved) : Option ℚ :=
  match r with
  | some v => if v.value = 0 then none else some v.value
  | none => none

/-- The revenue alias list, most preferred first. -/
def revenueFields : List String :=
  ["RevenueFromContractWithCustomerExcludingAssessedTax",
   "Revenues",
   "SalesRevenueNet",
   "RevenuesNetOfInterestExpense",
   "RevenueFromContractWithCustomerIncludingAssessedTax",
   "SalesRevenueGoodsNet",
   "SalesRevenueServicesNet",
   "TotalRevenues",
   "Revenue",
   "NetRevenues",
   "OperatingRevenues",
   "RevenueFromSaleOfGoods",
   "RevenueFromServices"]

/-- The cost-of-revenue alias list. -/
def costFields : List String :=
  ["CostOfGoodsAndServicesSold",
   "CostOfRevenue",
   "CostOfGoodsSold",
   "CostOfSales",
   "CostOfServices",
   "CostOfProductRevenue",
   "CostOfServiceRevenue",
   "CostOfRevenueExcludingDepreciationAndAmortization"]

/-- Annual selection as the extraction pipeline invokes it:
USD unit, fiscal-year floor 2022. -/
def sel (usgaap : FactsDoc) (aliases : List String) : Option Resolved :=
  getRecentAnnualValue usgaap "USD" 2022 aliases

def revenueData (u : FactsDoc) : Option Resolved := sel u revenueFields

def revenue (u : FactsDoc) : ℚ := dflt (revenueData u)

def costData (u : FactsDoc) : Option Resolved := sel u costFields

def costOfRevenue (u : FactsDoc) : ℚ := dflt (costData u)

/-- grossProfit = revenue > 0 && costOfRevenue > 0
? revenue - costOfRevenue : null. -/
def grossProfit (u : FactsDoc) : Option ℚ :=
  if 0 < revenue u ∧ 0 < costOfRevenue u then some (revenue u - costOfRevenue u) else none

def sgaData (u : FactsDoc) : Option Resolved :=
  sel u ["SellingGeneralAndAdministrativeExpense", "GeneralAndAdministrativeExpense"]

def rdData (u : FactsDoc) : Option Resolved :=
  sel u ["ResearchAndDevelopmentExpense",
         "ResearchAndDevelopmentExpenseExcludingAcquiredInProcessCost"]

def operatingIncome (u : FactsDoc) : ℚ :=
  dflt (sel u ["OperatingIncomeLoss", "IncomeLossFromOperations"])

def netIncome (u : FactsDoc) : ℚ :=
  dflt (sel u ["NetIncomeLoss", "ProfitLoss", "NetIncomeLossAvailableToCommonStockholdersBasic"])

def totalAssets (u : FactsDoc) : ℚ := dflt (sel u ["Assets", "TotalAssets"])

def totalLiabilities (u : FactsDoc) : ℚ := dflt (sel u ["Liabilities", "TotalLiabilities"])

def stockholdersEquity (u : FactsDoc) : ℚ :=
  dflt (sel u ["StockholdersEquity",
               "StockholdersEquityIncludingPortionAttributableToNoncontrollingInterest",
               "TotalEquity"])

def currentAssets (u : FactsDoc) : ℚ := dflt (sel u ["AssetsCurrent", "CurrentAssets"])

def currentLiabilities (u : FactsDoc) : ℚ :=
  dflt (sel u ["LiabilitiesCurrent", "CurrentLiabilities"])

def cashAndEquivalents (u : FactsDoc) : ℚ :=
  dflt (sel u ["CashAndCashEquivalentsAtCarryingValue",
               "CashCashEquivalentsAndShortTermInvestments",
               "Cash",
               "CashAndCashEquivalents"])

def operatingCashFlow (u : FactsDoc) : ℚ :=
  dflt (sel u ["NetCashProvidedByUsedInOperatingActivities",
               "NetCashProvidedByOperatingActivities",
               "CashFlowsFromOperatingActivities"])

def investingCashFlow (u : FactsDoc) : ℚ :=
  dflt (sel u ["NetCashProvidedByUsedInInvestingActivities",
               "NetCashUsedInInvestingActivities"])

def financingCashFlow (u : FactsDoc) : ℚ :=
  dflt (sel u ["NetCashProvidedByUsedInFinancingActivities",
               "NetCashUsedInFinancingActivities"])

def sharesOutstanding (u : FactsDoc) : ℚ :=
  dflt (sel u ["WeightedAverageNumberOfSharesOutstandingBasic",
               "CommonStockSharesOutstanding",
               "EntityCommonStockSharesOutstanding"])

def earningsPerShare (u : FactsDoc) : ℚ :=
  dflt (sel u ["EarningsPerShareBasic", "EarningsPerShareDiluted", "BasicEarningsPerShare"])

/-- Local validation margin:
revenue > 0 && grossProfit ? (grossProfit / revenue) * 100 : null. -/
def grossMargin (u : FactsDoc) : Option ℚ :=
  if 0 < revenue u ∧ truthyQ (grossProfit u) = true then
    some ((grossProfit u).getD 0 / revenue u * 100)
  else none

/-- Local validation margin:
revenue > 0 && netIncome ? (netIncome / revenue) * 100 : null. -/
def netMargin (u : FactsDoc) : Option ℚ :=
  if 0 < revenue u ∧ ¬ netIncome u = 0 then some (netIncome u / revenue u * 100) else none

/-- The truthiness-guarded profitability consistency check
grossProfit && operatingIncome && operatingIncome <= grossProfit. -/
def profitCheck (u : FactsDoc) : Bool :=
  truthyQ (grossProfit u) && !(decide (operatingIncome u = 0))
    && decide (operatingIncome u ≤ (grossProfit u).getD 0)

/-- The truthiness-guarded margin consistency check
grossMargin && netMargin && netMargin <= grossMargin. -/
def marginCheck (u : FactsDoc) : Bool :=
  truthyQ (grossMargin u) && truthyQ (netMargin u)
    && decide ((netMargin u).getD 0 ≤ (grossMargin u).getD 0)

/-- The data quality score: the sequence of conditional additions of
the source collapsed to its sum. -/
def dataQualityScore (u : FactsDoc) : Nat :=
  (if 0 < revenue u then 25 else 0) +
  (if gpValid (grossProfit u) = true then 25 else 0) +
  (if 0 < totalAssets u then 25 else 0) +
  (if ¬ operatingCashFlow u = 0 then 25 else 0) +
  (if profitCheck u = true then 10 else 0) +
  (if marginCheck u = true then 10 else 0)

/-- The issue strings appended by the failed checks, in source order. -/
def dataQualityIssues (u : FactsDoc) : List String :=
  (if 0 < revenue u then [] else ["Missing revenue data"]) ++
  (if gpValid (grossProfit u) = true then [] else ["Missing or invalid gross profit"]) ++
  (if 0 < totalAssets u then [] else ["Missing balance sheet data"]) ++
  (if ¬ operatingCashFlow u = 0 then [] else ["Missing cash flow data"]) ++
  (if profitCheck u = true then [] else ["Inconsistent profitability metrics"]) ++
  (if marginCheck u = true then [] else ["Inconsistent margin calculations"])

/-- metadata.dataYear: revenueData?.year || 'N/A'. -/
def dataYear (u : FactsDoc) : JVal :=
  match revenueData u with
  | some r => if r.year = 0 then JVal.str "N/A" else JVal.num (r.year : ℚ)
  | none => JVal.str "N/A"

/-- metadata.filingDate: revenueData?.filingDate || 'N/A'. -/
def filingDateMeta (u : FactsDoc) : JVal :=
  match revenueData u with
  | some r =>
    match r.filingDate with
    | some f => JVal.num (f : ℚ)
    | none => JVal.str "N/A"
  | none => JVal.str "N/A"

/-- dei?.CurrentFiscalYearEndDate?.units?.USD?.[0]?.val || 'Unknown'. -/
def fiscalYearEndOf (dei : FactsDoc) : JVal :=
  match lookupUnit dei "CurrentFiscalYearEndDate" "USD" with
  | some (v :: _) =>
    match v.val with
    | some x => if x = 0 then JVal.str "Unknown" else JVal.num x
    | none => JVal.str "Unknown"
  | _ => JVal.str "Unknown"

structure Metadata where
  ticker : String
  cik : String
  dataYear : JVal
  filingDate : JVal
  fiscalYearEnd : JVal
deriving DecidableEq

structure OperatingExpenses where
  sga : Option ℚ
  rd : Option ℚ
  total : Option ℚ
deriving DecidableEq

structure IncomeStatement where
  revenues : ℚ
  costOfRevenues : ℚ
  grossProfit : Option ℚ
  operatingExpenses : OperatingExpenses
  operatingIncome : ℚ
  netIncome : ℚ
  earningsPerShare : ℚ
  sharesOutstanding : ℚ
deriving DecidableEq

structure BalanceSheet where
  totalAssets : ℚ
  currentAssets : ℚ
  cashAndCashEquivalents : ℚ
  totalLiabilities : ℚ
  currentLiabilities : ℚ
  stockholdersEquity : ℚ
  workingCapital : Option ℚ
deriving DecidableEq

structure CashFlowStatement where
  operatingCashFlow : ℚ
  investingCashFlow : ℚ
  financingCashFlow : ℚ
  freeCashFlow : Option ℚ
deriving DecidableEq

structure KeyMetrics where
  grossMargin : Option ℚ
  operatingMargin : Option ℚ
  netMargin : Option ℚ
  returnOnAssets : Option ℚ
  returnOnEquity : Option ℚ
  currentRatio : Option ℚ
  quickRatio : Option ℚ
  debtToEquity : Option ℚ
  debtToAssets : Option ℚ
  assetTurnover : Option ℚ
  priceToEarnings : Option ℚ
  priceToBook : Option ℚ
  bookValuePerShare : JVal
  revenuePerShare : JVal
deriving DecidableEq

structure Trends where
  quarterlyRevenue : List QPoint
  quarterlyNetIncome : List QPoint
deriving DecidableEq

structure DataQuality where
  score : Nat
  issues : List String
deriving DecidableEq

structure Output where
  metadata : Metadata
  incomeStatement : IncomeStatement
  balanceSheet : BalanceSheet
  cashFlowStatement : CashFlowStatement
  keyMetrics : KeyMetrics
  trends : Trends
  dataQuality : DataQuality
deriving DecidableEq

/-- The extraction pipeline of sec-data.js after the facts document has
been fetched: the response object the handler serializes. -/
def extract (u dei : FactsDoc) (ticker cik : String) : Output :=
  { metadata :=
      { ticker := ticker
        cik := cik
        dataYear := dataYear u
        filingDate := filingDateMeta u
        fiscalYearEnd := fiscalYearEndOf dei }
    incomeStatement :=
      { revenues := revenue u
        costOfRevenues := costOfRevenue u
        grossProfit := grossProfit u
        operatingExpenses :=
          { sga := dfltNull (sgaData u)
            rd := dfltNull (rdData u)
            total :=
              if dflt (sgaData u) + dflt (rdData u) = 0 then none
              else some (dflt (sgaData u) + dflt (rdData u)) }
        operatingIncome := operatingIncome u
        netIncome := netIncome u
        earningsPerShare := earningsPerShare u
        sharesOutstanding := sharesOutstanding u }
    balanceSheet :=
      { totalAssets := totalAssets u
        currentAssets := currentAssets u
        cashAndCashEquivalents := cashAndEquivalents u
        totalLiabilities := totalLiabilities u
        currentLiabilities := currentLiabilities u
        stockholdersEquity := stockholdersEquity u
        workingCapital :=
          if ¬ currentAssets u = 0 ∧ ¬ currentLiabilities u = 0 then
            some (currentAssets u - currentLiabilities u)
          else none }
    cashFlowStatement :=
      { operatingCashFlow := operatingCashFlow u
        investingCashFlow := investingCashFlow u
        financingCashFlow := financingCashFlow u
        freeCashFlow :=
          if ¬ operatingCashFlow u = 0 ∧ ¬ investingCashFlow u = 0 then
            some (operatingCashFlow u + investingCashFlow u)
          else none }
    keyMetrics :=
      { grossMargin := calculateRatio (grossProfit u) (some (revenue u))
        operatingMargin := calculateRatio (some (operatingIncome u)) (some (revenue u))
        netMargin := calculateRatio (some (netIncome u)) (some (revenue u))
        returnOnAssets := calculateRatio (some (netIncome u)) (some (totalAssets u))
        returnOnEquity := calculateRatio (some (netIncome u)) (some (stockholdersEquity u))
        currentRatio := calculateSimpleRatio (some (currentAssets u)) (some (currentLiabilities u))
        quickRatio :=
          calculateSimpleRatio (some (currentAssets u - currentAssets u * (3/10)))
            (some (currentLiabilities u))
        debtToEquity :=
          calculateSimpleRatio (some (totalLiabilities u - currentLiabilities u))
            (some (stockholdersEquity u))
        debtToAssets :=
          calculateRatio (some (totalLiabilities u - currentLiabilities u))
            (some (totalAssets u))
        assetTurnover := calculateSimpleRatio (some (revenue u)) (some (totalAssets u))
        priceToEarnings := none
        priceToBook := none
        bookValuePerShare :=
          if 0 < sharesOutstanding u then
            JVal.str (toFixedStr2 (stockholdersEquity u / sharesOutstanding u))
          else JVal.null
        revenuePerShare :=
          if 0 < sharesOutstanding u then
            JVal.str (toFixedStr2 (revenue u / sharesOutstanding u))
          else JVal.null }
    trends :=
      { quarterlyRevenue := getQuarterlyValues u "USD" 4 revenueFields
        quarterlyNetIncome := getQuarterlyValues u "USD" 4 ["NetIncomeLoss", "ProfitLoss"] }
    dataQuality :=
      { score := dataQualityScore u
        issues := dataQualityIssues u } }

/-! Helper lemmas about the selector. -/

theorem mem_sortByEndDesc {l : List Obs} {x : Obs} : x ∈ sortByEndDesc l ↔ x ∈ l :=
  (List.perm_insertionSort moreRecent l).mem_iff

theorem sortByEndDesc_eq_nil {l : List Obs} (h : sortByEndDesc l = []) : l = [] := by
  have hp : (sortByEndDesc l).Perm l := List.perm_insertionSort moreRecent l
  rw [h] at hp
  exact hp.symm.eq_nil

theorem sortByEndDesc_head_max {l : List Obs} {m : Obs} {t : List Obs}
    (h : sortByEndDesc l = m :: t) : ∀ x ∈ l, endKey x ≤ endKey m := by
  intro x hx
  have hs : List.Sorted moreRecent (m :: t) := by
    rw [← h]; exact List.sorted_insertionSort moreRecent l
  have hx2 : x ∈ m :: t := by rw [← h]; exact mem_sortByEndDesc.2 hx
  rcases List.mem_cons.1 hx2 with rfl | hmem
  · exact Nat.le_refl _
  · exact (List.sorted_cons.1 hs).1 x hmem

theorem getRecentAnnualValue_cons_empty {doc : FactsDoc} {unitName : String} {minYear : Nat}
    {f : String} {rest : List String}
    (h : annualQualifying doc unitName minYear f = []) :
    getRecentAnnualValue doc unitName minYear (f :: rest) =
      getRecentAnnualValue doc unitName minYear rest := by
  cases hl : lookupUnit doc f unitName with
  | none =>
    conv_lhs => rw [getRecentAnnualValue]
    rw [hl]
  | some values =>
    unfold annualQualifying at h
    rw [hl] at h
    simp only [Option.getD_some] at h
    conv_lhs => rw [getRecentAnnualValue]
    rw [hl]
    dsimp only
    rw [h]
    rfl

theorem getRecentAnnualValue_append_empty {doc : FactsDoc} {unitName : String} {minYear : Nat}
    {pre : List String}
    (h : ∀ x ∈ pre, annualQualifying doc unitName minYear x = []) (l : List String) :
    getRecentAnnualValue doc unitName minYear (pre ++ l) =
      getRecentAnnualValue doc unitName minYear l := by
  induction pre with
  | nil => rfl
  | cons f rest ih =>
    rw [List.cons_append, getRecentAnnualValue_cons_empty (h f (List.mem_cons_self f rest))]
    exact ih (fun x hx => h x (List.mem_cons_of_mem f hx))

theorem getRecentAnnualValue_none {doc : FactsDoc} {unitName : String} {minYear : Nat}
    (h : ∀ tag, annualQualifying doc unitName minYear tag = []) :
    ∀ l, getRecentAnnualValue doc unitName minYear l = none := by
  intro l
  induction l with
  | nil => rfl
  | cons f rest ih => rw [getRecentAnnualValue_cons_empty (h f)]; exact ih

/-! Concrete documents used as test fixtures. -/

/-- A qualifying annual observation: 10-K, FY, valid value and end date. -/
def obsA (v : ℚ) (e : Nat) : Obs :=
  { val := some v, form := some "10-K", fp := some "FY", periodEnd := some e
    filed := some 20240115 }

/-- Fixture for C1/C6: the preferred alias Revenues has a 2023
observation, the later alias SalesRevenueNet a more recent 2024 one. -/
def doc1 : FactsDoc :=
  [("Revenues", [("USD", [obsA 100 20230630])]),
   ("SalesRevenueNet", [("USD", [obsA 999 20240630])])]

/-- Fixture for C3: revenue resolves to 5 and cost of revenue resolves
to the present value 0. -/
def doc3 : FactsDoc :=
  [("Revenues", [("USD", [obsA 5 20231231])]),
   ("CostOfRevenue", [("USD", [obsA 0 20231231])])]

/-- Fixture for C5: every one of the six quality checks passes. -/
def doc5 : FactsDoc :=
  [("RevenueFromContractWithCustomerExcludingAssessedTax", [("USD", [obsA 10 20231231])]),
   ("CostOfGoodsAndServicesSold", [("USD", [obsA 4 20231231])]),
   ("OperatingIncomeLoss", [("USD", [obsA 5 20231231])]),
   ("NetIncomeLoss", [("USD", [obsA 3 20231231])]),
   ("Assets", [("USD", [obsA 50 20231231])]),
   ("NetCashProvidedByUsedInOperatingActivities", [("USD", [obsA 7 20231231])])]

/-- Fixture for C5: as doc5 but operating income resolves to the
present value 0, so both sides of the profitability check exist. -/
def doc5b : FactsDoc :=
  [("RevenueFromContractWithCustomerExcludingAssessedTax", [("USD", [obsA 10 20231231])]),
   ("CostOfGoodsAndServicesSold", [("USD", [obsA 4 20231231])]),
   ("OperatingIncomeLoss", [("USD", [obsA 0 20231231])]),
   ("NetIncomeLoss", [("USD", [obsA 3 20231231])]),
   ("Assets", [("USD", [obsA 50 20231231])]),
   ("NetCashProvidedByUsedInOperatingActivities", [("USD", [obsA 7 20231231])])]

/-- Fixture for C7: only the balance-sheet line item Assets resolves;
no revenue alias is present. -/
def doc7 : FactsDoc := [("Assets", [("USD", [obsA 500 20231231])])]

/-- Fixture for C8: shares outstanding and equity resolve, so the
per-share fields are computed. -/
def doc8 : FactsDoc :=
  [("StockholdersEquity", [("USD", [obsA 100 20231231])]),
   ("WeightedAverageNumberOfSharesOutstandingBasic", [("USD", [obsA 50 20231231])])]

/-! Claim theorems. -/

/-- Claim C1: annual fact selection walks the alias list in preference
order and stops at the first alias whose filtered observation set is
non-empty: whenever every alias before a has an empty qualifying set
and a itself has a non-empty one, getRecentAnnualValue returns the
most recent qualifying observation of a, independently of every alias
after a (in particular of a less-preferred alias with a more recent
periodEnd). -/
theorem annual_alias_precedence (doc : FactsDoc) (unitName : String) (minYear : Nat)
    (pre post : List String) (a : String)
    (hpre : ∀ x ∈ pre, annualQualifying doc unitName minYear x = [])
    (ha : annualQualifying doc unitName minYear a ≠ []) :
    ∃ m, getRecentAnnualValue doc unitName minYear (pre ++ a :: post) = some (resolveObs m) ∧
      m ∈ annualQualifying doc unitName minYear a ∧
      ∀ x ∈ annualQualifying doc unitName minYear a, endKey x ≤ endKey m := by
  rw [getRecentAnnualValue_append_empty hpre]
  cases hl : lookupUnit doc a unitName with
  | none =>
    exact absurd (by unfold annualQualifying; rw [hl]; rfl) ha
  | some values =>
    have hq : annualQualifying doc unitName minYear a = values.filter (annualFilter minYear) := by
      unfold annualQualifying; rw [hl]; rfl
    cases hs : sortByEndDesc (values.filter (annualFilter minYear)) with
    | nil =>
      exact absurd (hq.trans (sortByEndDesc_eq_nil hs)) ha
    | cons m tail =>
      refine ⟨m, ?_, ?_, ?_⟩
      · conv_lhs => rw [getRecentAnnualValue]
        rw [hl]
        dsimp only
        rw [hs]
      · rw [hq, ← mem_sortByEndDesc, hs]
        exact List.mem_cons_self m tail
      · rw [hq]
        exact sortByEndDesc_head_max hs

/-- Witness for C1 on doc1: the preferred alias Revenues (FY2023,
value 100) wins over the later alias SalesRevenueNet even though the
latter holds a more recent FY2024 observation. -/
theorem annual_alias_precedence_witness :
    ∃ m, getRecentAnnualValue doc1 "USD" 2022
        (["RevenueFromContractWithCustomerExcludingAssessedTax"] ++ "Revenues" ::
          ["SalesRevenueNet", "RevenuesNetOfInterestExpense",
           "RevenueFromContractWithCustomerIncludingAssessedTax", "SalesRevenueGoodsNet",
           "SalesRevenueServicesNet", "TotalRevenues", "Revenue", "NetRevenues",
           "OperatingRevenues", "RevenueFromSaleOfGoods", "RevenueFromServices"]) =
        some (resolveObs m) ∧
      m ∈ annualQualifying doc1 "USD" 2022 "Revenues" ∧
      ∀ x ∈ annualQualifying doc1 "USD" 2022 "Revenues", endKey x ≤ endKey m :=
  annual_alias_precedence doc1 "USD" 2022
    ["RevenueFromContractWithCustomerExcludingAssessedTax"]
    ["SalesRevenueNet", "RevenuesNetOfInterestExpense",
     "RevenueFromContractWithCustomerIncludingAssessedTax", "SalesRevenueGoodsNet",
     "SalesRevenueServicesNet", "TotalRevenues", "Revenue", "NetRevenues",
     "OperatingRevenues", "RevenueFromSaleOfGoods", "RevenueFromServices"] "Revenues"
    (by decide) (by decide)

/-- Claim C6: no observation whose periodEnd year is below the minimum
fiscal year is ever returned by annual selection, whatever its form,
period or value. -/
theorem annual_min_year_floor (doc : FactsDoc) (unitName : String) (minYear : Nat)
    (aliases : List String) (r : Resolved)
    (h : getRecentAnnualValue doc unitName minYear aliases = some r) :
    minYear ≤ r.year := by
  induction aliases with
  | nil => exact absurd h (by simp [getRecentAnnualValue])
  | cons f rest ih =>
    rw [getRecentAnnualValue] at h
    cases hl : lookupUnit doc f unitName with
    | none =>
      rw [hl] at h
      exact ih h
    | some values =>
      rw [hl] at h
      dsimp only at h
      cases hs : sortByEndDesc (values.filter (annualFilter minYear)) with
      | nil =>
        rw [hs] at h
        exact ih h
      | cons m tail =>
        rw [hs] at h
        dsimp only at h
        have hr : r = resolveObs m := (Option.some_inj.1 h).symm
        have hm : m ∈ values.filter (annualFilter minYear) := by
          rw [← mem_sortByEndDesc, hs]
          exact List.mem_cons_self m tail
        have hf : annualFilter minYear m = true := (List.mem_filter.1 hm).2
        have hy : minYear ≤ obsYear m := by
          simp only [annualFilter, Bool.and_eq_true, decide_eq_true_eq] at hf
          exact hf.2
        rw [hr]
        exact hy

/-- Counterexample to C2: on a facts document in which no alias of any
line item yields a qualifying observation, the output fields
incomeStatement.revenues, balanceSheet.totalAssets and
cashFlowStatement.operatingCashFlow are the number 0 (the output type
of these fields admits no null at all), not the null the claim
requires. -/
theorem unresolved_counterexample :
    (extract [] [] "TICK" "0000320193").incomeStatement.revenues = 0 ∧
    (extract [] [] "TICK" "0000320193").balanceSheet.totalAssets = 0 ∧
    (extract [] [] "TICK" "0000320193").cashFlowStatement.operatingCashFlow = 0 := by
  refine ⟨?_, ?_, ?_⟩ <;> rfl

/-- Claim C2 as amended: when no alias yields a qualifying observation
the extraction still totally succeeds (the embedding is a total
function), but the core statement fields revenues, costOfRevenues,
totalAssets and operatingCashFlow are 0 rather than null; only the
optional-expense fields, the derived fields and the metadata year
carry the explicit null (or N/A) marker. -/
theorem unresolved_fields_amended (u dei : FactsDoc) (t c : String)
    (h : ∀ tag, annualQualifying u "USD" 2022 tag = []) :
    (extract u dei t c).incomeStatement.revenues = 0 ∧
    (extract u dei t c).incomeStatement.costOfRevenues = 0 ∧
    (extract u dei t c).balanceSheet.totalAssets = 0 ∧
    (extract u dei t c).cashFlowStatement.operatingCashFlow = 0 ∧
    (extract u dei t c).incomeStatement.grossProfit = none ∧
    (extract u dei t c).incomeStatement.operatingExpenses.sga = none ∧
    (extract u dei t c).incomeStatement.operatingExpenses.rd = none ∧
    (extract u dei t c).incomeStatement.operatingExpenses.total = none ∧
    (extract u dei t c).balanceSheet.workingCapital = none ∧
    (extract u dei t c).cashFlowStatement.freeCashFlow = none ∧
    (extract u dei t c).keyMetrics.grossMargin = none ∧
    (extract u dei t c).keyMetrics.netMargin = none ∧
    (extract u dei t c).metadata.dataYear = JVal.str "N/A" := by
  have hn : ∀ l, getRecentAnnualValue u "USD" 2022 l = none := getRecentAnnualValue_none h
  have hs : ∀ l, sel u l = none := fun l => hn l
  refine ⟨?_, ?_, ?_, ?_, ?_, ?_, ?_, ?_, ?_, ?_, ?_, ?_, ?_⟩
  · show revenue u = 0
    simp [revenue, revenueData, hs, dflt]
  · show costOfRevenue u = 0
    simp [costOfRevenue, costData, hs, dflt]
  · show totalAssets u = 0
    simp [totalAssets, hs, dflt]
  · show operatingCashFlow u = 0
    simp [operatingCashFlow, hs, dflt]
  · show grossProfit u = none
    simp [grossProfit, revenue, revenueData, hs, dflt]
  · show dfltNull (sgaData u) = none
    simp [sgaData, hs, dfltNull]
  · show dfltNull (rdData u) = none
    simp [rdData, hs, dfltNull]
  · show (if dflt (sgaData u) + dflt (rdData u) = 0 then none
      else some (dflt (sgaData u) + dflt (rdData u))) = none
    simp [sgaData, rdData, hs, dflt]
  · show (if ¬ currentAssets u = 0 ∧ ¬ currentLiabilities u = 0 then
      some (currentAssets u - currentLiabilities u) else none) = none
    simp [currentAssets, hs, dflt]
  · show (if ¬ operatingCashFlow u = 0 ∧ ¬ investingCashFlow u = 0 then
      some (operatingCashFlow u + investingCashFlow u) else none) = none
    simp [operatingCashFlow, hs, dflt]
  · show calculateRatio (grossProfit u) (some (revenue u)) = none
    simp [grossProfit, revenue, revenueData, hs, dflt, calculateRatio]
  · show calculateRatio (some (netIncome u)) (some (revenue u)) = none
    simp [netIncome, hs, dflt, calculateRatio]
  · show dataYear u = JVal.str "N/A"
    simp [dataYear, revenueData, hs]

/-- Witness for the amended C2 at the empty facts document. -/
theorem unresolved_fields_amended_witness :
    (extract [] [] "TICK" "0000320193").incomeStatement.grossProfit = none ∧
    (extract [] [] "TICK" "0000320193").keyMetrics.netMargin = none ∧
    (extract [] [] "TICK" "0000320193").metadata.dataYear = JVal.str "N/A" :=
  ⟨(unresolved_fields_amended [] [] "TICK" "0000320193" (fun _ => rfl)).2.2.2.2.1,
   (unresolved_fields_amended [] [] "TICK" "0000320193" (fun _ => rfl)).2.2.2.2.2.2.2.2.2.2.2.1,
   (unresolved_fields_amended [] [] "TICK" "0000320193" (fun _ => rfl)).2.2.2.2.2.2.2.2.2.2.2.2⟩

/-- Counterexample to C3: on doc3 both revenue (5) and cost of revenue
(0) resolve to present, non-null values, yet grossProfit is null
rather than the difference 5 the claim requires, because the code
demands strictly positive operands, not mere presence. -/
theorem grossProfit_counterexample :
    revenueData doc3 = some (Resolved.mk 5 2023 20231231 (some 20240115)) ∧
    costData doc3 = some (Resolved.mk 0 2023 20231231 (some 20240115)) ∧
    (extract doc3 [] "T" "C").incomeStatement.grossProfit = none ∧
    ¬ (extract doc3 [] "T" "C").incomeStatement.grossProfit = some (5 - 0) := by
  refine ⟨by decide, by decide, by decide, by decide⟩

/-- Claim C3 as amended: grossProfit is the exact difference
revenues - costOfRevenues when both defaulted resolved values are
strictly positive, and null otherwise (so also null when either side
is zero or negative, or when exactly one is missing). -/
theorem grossProfit_amended (u dei : FactsDoc) (t c : String) :
    (extract u dei t c).incomeStatement.grossProfit =
      (if 0 < (extract u dei t c).incomeStatement.revenues ∧
          0 < (extract u dei t c).incomeStatement.costOfRevenues then
        some ((extract u dei t c).incomeStatement.revenues -
          (extract u dei t c).incomeStatement.costOfRevenues)
      else none) := rfl

/-- Witness for C6 on doc1: the selected revenue observation has
year 2023, at or above the floor 2022. -/
theorem annual_min_year_floor_witness :
    (2022 : Nat) ≤
      (Resolved.mk 100 2023 20230630 (some 20240115)).year :=
  annual_min_year_floor doc1 "USD" 2022 revenueFields
    (Resolved.mk 100 2023 20230630 (some 20240115)) (by decide)

/-- Counterexample to C4: a numerator of exactly 0 with the nonzero
denominator 100 yields null, whereas the claim requires the rounded
percentage 0 in that case (null only for null operands, zero
denominator or out-of-band percentages). -/
theorem calculateRatio_counterexample :
    calculateRatio (some 0) (some 100) = none ∧
    ¬ calculateRatio (some 0) (some 100) = some (round2 (0 / 100 * 100)) := by
  refine ⟨by decide, by decide⟩

/-- Claim C4 as amended: calculateRatio returns null exactly when an
operand is null, the numerator is 0, the denominator is 0, or the
computed percentage lies outside the closed band from -1000 to 1000;
in every other case it returns the percentage rounded to two decimal
places; in particular 10000/100 percent is discarded and 50/100
percent is 50. -/
theorem calculateRatio_amended :
    (∀ d, calculateRatio none d = none) ∧
    (∀ n, calculateRatio n none = none) ∧
    (∀ d, calculateRatio (some 0) d = none) ∧
    (∀ n, calculateRatio n (some 0) = none) ∧
    (∀ x y : ℚ, 1000 < x / y * 100 ∨ x / y * 100 < -1000 →
      calculateRatio (some x) (some y) = none) ∧
    (∀ x y : ℚ, ¬ x = 0 → ¬ y = 0 → ¬ 1000 < x / y * 100 → ¬ x / y * 100 < -1000 →
      calculateRatio (some x) (some y) = some (round2 (x / y * 100))) ∧
    calculateRatio (some 10000) (some 100) = none ∧
    calculateRatio (some 50) (some 100) = some 50 := by
  refine ⟨fun d => by simp [calculateRatio],
    fun n => by simp [calculateRatio],
    fun d => by simp [calculateRatio],
    fun n => by simp [calculateRatio],
    fun x y h => ?_,
    fun x y hx hy h1 h2 => ?_,
    by with_unfolding_all decide,
    by with_unfolding_all decide⟩
  · by_cases hx : x = 0
    · subst hx
      simp at h
      norm_num at h
    · by_cases hy : y = 0
      · subst hy
        simp at h
        norm_num at h
      · simp only [calculateRatio]
        rw [if_neg (by simp [hx, hy])]
        exact if_pos h
  · simp only [calculateRatio]
    rw [if_neg (by simp [hx, hy])]
    exact if_neg (fun hcon => hcon.elim h1 h2)

/-- Witness for the amended C4 at the concrete input 200/100: the
percentage 200 is inside the band, so it is returned rounded. -/
theorem calculateRatio_amended_witness :
    calculateRatio (some 200) (some 100) = some (round2 (200 / 100 * 100)) :=
  calculateRatio_amended.2.2.2.2.2.1 200 100 (by norm_num) (by norm_num)
    (by norm_num) (by norm_num)

/-- Counterexample to C5: on doc5 all six checks pass and the score is
120, outside the claimed range [0, 110]; and on doc5b, where operating
income resolves to the present value 0 and grossProfit is 6, the
claimed check 0 <= 6 with both sides present would award its 10
points, but the code scores it as failed (truthiness of 0 is false),
yielding 110 with the profitability issue string. -/
theorem dataQuality_counterexample :
    (extract doc5 [] "T" "C").dataQuality.score = 120 ∧
    (extract doc5 [] "T" "C").dataQuality.issues = [] ∧
    (extract doc5b [] "T" "C").incomeStatement.operatingIncome = 0 ∧
    (extract doc5b [] "T" "C").incomeStatement.grossProfit = some 6 ∧
    (extract doc5b [] "T" "C").dataQuality.score = 110 ∧
    (extract doc5b [] "T" "C").dataQuality.issues = ["Inconsistent profitability metrics"] := by
  refine ⟨?_, ?_, ?_, ?_, ?_, ?_⟩ <;> with_unfolding_all decide

/-- Claim C5 as amended: the score is the plain sum of the six
fixed-weight checks evaluated with JavaScript truthiness (so a zero
grossProfit, operatingIncome, netIncome or revenue fails the
consistency checks even when the values are present), each failed
check appends its fixed issue string in source order, and the score
lies in [0, 120], not [0, 110]. -/
theorem dataQuality_amended (u dei : FactsDoc) (t c : String) :
    (extract u dei t c).dataQuality.score =
      (if 0 < (extract u dei t c).incomeStatement.revenues then 25 else 0) +
      (if gpValid (extract u dei t c).incomeStatement.grossProfit = true then 25 else 0) +
      (if 0 < (extract u dei t c).balanceSheet.totalAssets then 25 else 0) +
      (if ¬ (extract u dei t c).cashFlowStatement.operatingCashFlow = 0 then 25 else 0) +
      (if profitCheck u = true then 10 else 0) +
      (if marginCheck u = true then 10 else 0) ∧
    (extract u dei t c).dataQuality.issues =
      (if 0 < (extract u dei t c).incomeStatement.revenues then []
        else ["Missing revenue data"]) ++
      (if gpValid (extract u dei t c).incomeStatement.grossProfit = true then []
        else ["Missing or invalid gross profit"]) ++
      (if 0 < (extract u dei t c).balanceSheet.totalAssets then []
        else ["Missing balance sheet data"]) ++
      (if ¬ (extract u dei t c).cashFlowStatement.operatingCashFlow = 0 then []
        else ["Missing cash flow data"]) ++
      (if profitCheck u = true then [] else ["Inconsistent profitability metrics"]) ++
      (if marginCheck u = true then [] else ["Inconsistent margin calculations"]) ∧
    (extract u dei t c).dataQuality.score ≤ 120 := by
  refine ⟨rfl, rfl, ?_⟩
  show dataQualityScore u ≤ 120
  unfold dataQualityScore
  split_ifs <;> omega

/-- Counterexample to C7: on doc7 the balance-sheet line item Assets
resolves (totalAssets is 500), yet because revenue is absent the
representative period metadata is the absent marker N/A instead of
being taken from the first line item that did resolve. -/
theorem metadata_counterexample :
    (extract doc7 [] "T" "C").balanceSheet.totalAssets = 500 ∧
    (extract doc7 [] "T" "C").metadata.dataYear = JVal.str "N/A" ∧
    (extract doc7 [] "T" "C").metadata.filingDate = JVal.str "N/A" := by
  refine ⟨?_, ?_, ?_⟩ <;> decide

/-- Claim C7 as amended: the representative period metadata is taken
from the revenue resolution only; when revenue does not resolve, the
fiscal year and filing date are the N/A marker regardless of which
other line items resolved. -/
theorem metadata_amended (u dei : FactsDoc) (t c : String) :
    (revenueData u = none →
      (extract u dei t c).metadata.dataYear = JVal.str "N/A" ∧
      (extract u dei t c).metadata.filingDate = JVal.str "N/A") ∧
    (∀ r, revenueData u = some r →
      (extract u dei t c).metadata.dataYear =
        (if r.year = 0 then JVal.str "N/A" else JVal.num (r.year : ℚ)) ∧
      (extract u dei t c).metadata.filingDate =
        (match r.filingDate with
         | some f => JVal.num (f : ℚ)
         | none => JVal.str "N/A")) := by
  constructor
  · intro h
    constructor
    · show dataYear u = JVal.str "N/A"
      simp [dataYear, h]
    · show filingDateMeta u = JVal.str "N/A"
      simp [filingDateMeta, h]
  · intro r h
    constructor
    · show dataYear u = _
      simp [dataYear, h]
    · show filingDateMeta u = _
      simp [filingDateMeta, h]

/-- Witness for the amended C7 on doc7, where revenue is absent. -/
theorem metadata_amended_witness :
    (extract doc7 [] "T" "C").metadata.dataYear = JVal.str "N/A" ∧
    (extract doc7 [] "T" "C").metadata.filingDate = JVal.str "N/A" :=
  (metadata_amended doc7 [] "T" "C").1 (by decide)

/-- Counterexample to C8: on doc8 the numeric per-share fields are the
strings "2.00" and "0.00" produced by toFixed, not numbers and not
null, and metadata.dataYear is the string N/A rather than a number or
null. -/
theorem output_shape_counterexample :
    (extract doc8 [] "T" "C").keyMetrics.bookValuePerShare = JVal.str "2.00" ∧
    (extract doc8 [] "T" "C").keyMetrics.revenuePerShare = JVal.str "0.00" ∧
    (extract doc8 [] "T" "C").metadata.dataYear = JVal.str "N/A" := by
  refine ⟨?_, ?_, ?_⟩ <;> with_unfolding_all decide

/-- Claim C8 as amended: every output key is always present, but the
per-share fields are strings (the toFixed rendering) whenever shares
outstanding is positive and null otherwise, and metadata.dataYear is
either a number or the string N/A. -/
theorem output_shape_amended (u dei : FactsDoc) (t c : String) :
    (extract u dei t c).keyMetrics.bookValuePerShare =
      (if 0 < sharesOutstanding u then
        JVal.str (toFixedStr2 (stockholdersEquity u / sharesOutstanding u))
      else JVal.null) ∧
    (extract u dei t c).keyMetrics.revenuePerShare =
      (if 0 < sharesOutstanding u then
        JVal.str (toFixedStr2 (revenue u / sharesOutstanding u))
      else JVal.null) ∧
    ((extract u dei t c).metadata.dataYear = JVal.str "N/A" ∨
      ∃ n : ℚ, (extract u dei t c).metadata.dataYear = JVal.num n) ∧
    ((extract u dei t c).metadata.filingDate = JVal.str "N/A" ∨
      ∃ n : ℚ, (extract u dei t c).metadata.filingDate = JVal.num n) := by
  refine ⟨rfl, rfl, ?_, ?_⟩
  · show dataYear u = JVal.str "N/A" ∨ ∃ n : ℚ, dataYear u = JVal.num n
    unfold dataYear
    cases revenueData u with
    | none => exact Or.inl rfl
    | some r =>
      dsimp only
      by_cases h : r.year = 0
      · exact Or.inl (by rw [if_pos h])
      · exact Or.inr ⟨(r.year : ℚ), by rw [if_neg h]⟩
  · show filingDateMeta u = JVal.str "N/A" ∨ ∃ n : ℚ, filingDateMeta u = JVal.num n
    unfold filingDateMeta
    cases revenueData u with
    | none => exact Or.inl rfl
    | some r =>
      dsimp only
      cases r.filingDate with
      | none => exact Or.inl rfl
      | some f => exact Or.inr ⟨(f : ℚ), rfl⟩

/-- Claim C9: extraction is deterministic; two runs on equal facts
documents with equal ticker and cik produce identical outputs, the
embedding being a total pure function of exactly these inputs. -/
theorem extraction_deterministic (u v deiU deiV : FactsDoc) (t tv c cv : String)
    (hu : u = v) (hdei : deiU = deiV) (ht : t = tv) (hc : c = cv) :
    extract u deiU t c = extract v deiV tv cv := by
  subst hu; subst hdei; subst ht; subst hc; rfl

/-- Witness for C9: two runs on doc5 coincide. -/
theorem extraction_deterministic_witness :
    extract doc5 [] "T" "C" = extract doc5 [] "T" "C" :=
  extraction_deterministic doc5 doc5 [] [] "T" "T" "C" "C" rfl rfl rfl rfl

/-- Claim C10: both ratio helpers treat a numerator of exactly 0 as
missing: for every nonzero denominator the result is null rather than
0.00; consequently a statement whose net income is exactly 0 has null
netMargin, returnOnAssets and returnOnEquity even when revenue,
assets and equity are present and nonzero. -/
theorem zero_numerator_is_missing :
    (∀ d : ℚ, ¬ d = 0 →
      calculateRatio (some 0) (some d) = none ∧
      calculateSimpleRatio (some 0) (some d) = none) ∧
    (∀ (u dei : FactsDoc) (t c : String),
      (extract u dei t c).incomeStatement.netIncome = 0 →
      (extract u dei t c).keyMetrics.netMargin = none ∧
      (extract u dei t c).keyMetrics.returnOnAssets = none ∧
      (extract u dei t c).keyMetrics.returnOnEquity = none) := by
  constructor
  · intro d _
    exact ⟨by simp [calculateRatio], by simp [calculateSimpleRatio]⟩
  · intro u dei t c h
    have h' : netIncome u = 0 := h
    refine ⟨?_, ?_, ?_⟩
    · show calculateRatio (some (netIncome u)) (some (revenue u)) = none
      rw [h']
      simp [calculateRatio]
    · show calculateRatio (some (netIncome u)) (some (totalAssets u)) = none
      rw [h']
      simp [calculateRatio]
    · show calculateRatio (some (netIncome u)) (some (stockholdersEquity u)) = none
      rw [h']
      simp [calculateRatio]

/-- Witness for C10 at denominator 7. -/
theorem zero_numerator_is_missing_witness :
    calculateRatio (some 0) (some 7) = none ∧
    calculateSimpleRatio (some 0) (some 7) = none :=
  zero_numerator_is_missing.1 7 (by norm_num)

end SecConverter
